import Mathlib

/-!
Verification development for the AiContentAnalyser repository (Content
Scorecard).  The repository ships a React/TypeScript frontend: the data
model in src/types/api.ts, an axios-based ApiClient with retry logic
(src/api/client.ts), a MockApiClient backed by the sample report
src/data/report.json (src/api/mockClient.ts), and the AnalyzePage
submission handler (src/pages/AnalyzePage.tsx).  TypeScript numbers are
modelled as rationals, optional fields as Option, JS objects used as
string-keyed dictionaries as association lists, and fallible async
operations as Except values.  Sources of randomness and the clock
(Math.random, Date.now) are passed in as explicit arguments.
-/

namespace Scorecard

/-! ## Data model (src/types/api.ts) -/

/-- interface Metric (src/types/api.ts): name, description, category, weight. -/
structure Metric where
  name : String
  description : String
  category : String
  weight : ℚ
deriving DecidableEq

/-- interface MetricResult (src/types/api.ts): metric, score, reasoning,
improvement_advice, positive_examples, improvement_examples, confidence.
There is no status field in the shipped type. -/
structure MetricResult where
  metric : Metric
  score : ℚ
  reasoning : String
  improvement_advice : String
  positive_examples : List String
  improvement_examples : List String
  confidence : ℚ
deriving DecidableEq

/-- interface CategoryScores: a JS object mapping category name to number,
modelled as an ordered association list. -/
abbrev CategoryScores := List (String × ℚ)

/-- The metadata object of interface EvaluationResult (src/types/api.ts):
metrics_evaluated, evaluation_time, model_used. -/
structure Metadata where
  metrics_evaluated : ℚ
  evaluation_time : ℚ
  model_used : String
deriving DecidableEq

/-- The field names of the metadata object of interface EvaluationResult,
in declaration order (src/types/api.ts lines 29-33). -/
def evaluationResultMetadataFields : List String :=
  ["metrics_evaluated", "evaluation_time", "model_used"]

/-- interface EvaluationResult (src/types/api.ts). -/
structure EvaluationResult where
  overall_score : ℚ
  category_scores : CategoryScores
  metric_results : List MetricResult
  content_hash : String
  timestamp : String
  metadata : Metadata
deriving DecidableEq

/-- The provider union type of interface LLMConfig. -/
inductive Provider where
  | openai
  | ollama
  | lmstudio
deriving DecidableEq

/-- interface LLMConfig (src/types/api.ts); api_key and base_url are
optional. -/
structure LLMConfig where
  provider : Provider
  model_name : String
  api_key : Option String
  base_url : Option String
deriving DecidableEq

/-- interface AppConfig (src/types/api.ts). -/
structure AppConfig where
  llm : LLMConfig
  guidelines_path : String
  reports_dir : String
deriving DecidableEq

/-- interface UpdateSettingsRequest (src/types/api.ts): every field is
optional; an absent field is modelled as none. -/
structure UpdateSettingsRequest where
  llm : Option LLMConfig
  guidelines_path : Option String
  reports_dir : Option String
deriving DecidableEq

/-- interface EvaluateContentRequest (src/types/api.ts), restricted to the
fields AnalyzePage actually sends (content and the optional llm). -/
structure EvaluateContentRequest where
  content : String
  llm : Option LLMConfig
deriving DecidableEq

/-! ## ApiClient retry logic (src/api/client.ts) -/

/-- const MAX_RETRIES = 2 (src/api/client.ts). -/
def MAX_RETRIES : Nat := 2

/-- const BASE_RETRY_DELAY = 2000 (src/api/client.ts). -/
def BASE_RETRY_DELAY : ℚ := 2000

/-- An error thrown by an axios request, as inspected by the client:
whether axios.isAxiosError holds, the HTTP status of the response when one
arrived (error.response), and the error code string (error.code). -/
structure AxiosError where
  isAxiosError : Bool
  response : Option Nat
  code : Option String
deriving DecidableEq

/-- The HTTP status codes listed in ApiClient.isRetryableError. -/
def retryableStatuses : List Nat := [408, 429, 500, 502, 503, 504]

/-- ApiClient.isRetryableError: retry on a missing response (network
error), code ECONNABORTED (timeout), code ECONNREFUSED, or a response
whose status is one of 408, 429, 500, 502, 503, 504. -/
def isRetryableError (e : AxiosError) : Bool :=
  e.response.isNone ||
  e.code == some "ECONNABORTED" ||
  e.code == some "ECONNREFUSED" ||
  (match e.response with
   | some status => retryableStatuses.contains status
   | none => false)

/-- ApiClient.getRetryDelay: for retryCount 1 the delay is 3000 +
Math.random() * 1000, for retryCount 2 it is 4000 + Math.random() * 1000,
otherwise min(BASE_RETRY_DELAY * 2 ^ (retryCount - 1) + Math.random() *
1000, 10000).  The Math.random() draw is the explicit argument rand. -/
def getRetryDelay (retryCount : Nat) (rand : ℚ) : ℚ :=
  if retryCount = 1 then 3000 + rand * 1000
  else if retryCount = 2 then 4000 + rand * 1000
  else min (BASE_RETRY_DELAY * (2 : ℚ) ^ ((retryCount : ℤ) - 1) + rand * 1000) 10000

/-- Outcome of one underlying this.client.request call. -/
inductive ReqOutcome (T : Type) where
  | ok (val : T)
  | err (e : AxiosError)

/-- Observable behaviour of one requestWithRetry run: the final result,
the total number of underlying request attempts, and the backoff delays
waited between attempts, in order. -/
structure RunResult (T : Type) where
  result : Except AxiosError T
  attempts : Nat
  delays : List ℚ

/-- ApiClient.requestWithRetry: try the request; on failure, if retries
remain and the error is an axios error classified retryable, wait
getRetryDelay(MAX_RETRIES - retries + 1) and recurse with retries - 1;
otherwise rethrow.  The i-th underlying attempt outcome is attempt i and
the Math.random() draw used for the delay after attempt i is rand i. -/
def requestWithRetry {T : Type} (attempt : Nat → ReqOutcome T) (rand : Nat → ℚ) :
    Nat → Nat → RunResult T
  | 0, idx =>
    match attempt idx with
    | .ok v => ⟨.ok v, 1, []⟩
    | .err e => ⟨.error e, 1, []⟩
  | r + 1, idx =>
    match attempt idx with
    | .ok v => ⟨.ok v, 1, []⟩
    | .err e =>
      if e.isAxiosError && isRetryableError e then
        let d := getRetryDelay (MAX_RETRIES - (r + 1) + 1) (rand idx)
        let rest := requestWithRetry attempt rand r (idx + 1)
        ⟨rest.result, rest.attempts + 1, d :: rest.delays⟩
      else ⟨.error e, 1, []⟩

/-! ## MockApiClient (src/api/mockClient.ts) -/

/-- The sample report src/data/report.json imported by MockApiClient (scores are exact decimal rationals). -/
def sampleReport : EvaluationResult where
  overall_score := (3.8 : ℚ)
  category_scores := [("clarity", (4.2 : ℚ)), ("accuracy", (3.5 : ℚ)), ("engagement", (3.9 : ℚ)), ("completeness", (3.6 : ℚ)), ("readability", (4.0 : ℚ))]
  metric_results := [
    { metric := { name := "conciseness",
                  description := "Evaluates how efficiently the content conveys information without unnecessary words",
                  category := "clarity", weight := (0.3 : ℚ) },
      score := (4.5 : ℚ),
      reasoning := "The content uses clear, direct language with minimal redundancy. Sentences are appropriately sized and paragraphs are focused on single topics.",
      improvement_advice := "Consider further tightening a few sections by removing filler phrases like 'it is important to note that' and 'as you can see'.",
      positive_examples := ["The product increases efficiency by 40% through automated processing."],
      improvement_examples := ["It is important to note that the system will, as you can see from the data provided, improve your workflow significantly."],
      confidence := (0.92 : ℚ) },
    { metric := { name := "jargon_usage",
                  description := "Assesses appropriate use of technical terminology for the target audience",
                  category := "clarity", weight := (0.2 : ℚ) },
      score := (3.8 : ℚ),
      reasoning := "Technical terms are generally well-explained when introduced. Some specialized vocabulary is used appropriately given the audience's expertise level.",
      improvement_advice := "Consider adding brief definitions for terms like 'API integration' and 'middleware' to make the content more accessible to less technical readers.",
      positive_examples := ["The machine learning algorithm (a system that learns from data patterns) identifies potential issues before they occur."],
      improvement_examples := ["The REST API endpoints connect through the OAuth middleware for authentication."],
      confidence := (0.85 : ℚ) },
    { metric := { name := "logical_flow",
                  description := "Evaluates how well ideas connect and progress in a logical sequence",
                  category := "clarity", weight := (0.25 : ℚ) },
      score := (4.2 : ℚ),
      reasoning := "The content follows a clear structure with logical transitions between sections. Ideas build upon each other in a coherent progression.",
      improvement_advice := "Consider adding more explicit transition phrases between the third and fourth paragraphs to strengthen the connection between those sections.",
      positive_examples := ["First, we'll examine the problem. Then, we'll explore potential solutions before recommending the optimal approach."],
      improvement_examples := ["The system architecture has several components. The database schema includes multiple tables."],
      confidence := (0.88 : ℚ) },
    { metric := { name := "factual_accuracy",
                  description := "Assesses whether claims and data presented are factually correct",
                  category := "accuracy", weight := (0.4 : ℚ) },
      score := (3.7 : ℚ),
      reasoning := "Most facts and figures appear accurate and are consistent with reliable sources. Some claims could benefit from additional verification or citation.",
      improvement_advice := "Add specific citations for the market growth statistics and technology adoption rates mentioned in the second section.",
      positive_examples := ["According to the 2023 Industry Report, 78% of companies have adopted this technology."],
      improvement_examples := ["The market has grown exponentially in recent years, with massive adoption across all sectors."],
      confidence := (0.82 : ℚ) },
    { metric := { name := "source_credibility",
                  description := "Evaluates the reliability and authority of cited sources",
                  category := "accuracy", weight := (0.3 : ℚ) },
      score := (3.4 : ℚ),
      reasoning := "Most sources cited are credible, including industry reports and academic publications. Some sources lack recency or come from potentially biased organizations.",
      improvement_advice := "Replace the citations from vendor white papers with more neutral third-party research where possible.",
      positive_examples := ["As documented in the peer-reviewed study published in the Journal of Technology Innovation (2024)..."],
      improvement_examples := ["According to TechCorp's own research, their solution outperforms all competitors."],
      confidence := (0.79 : ℚ) },
    { metric := { name := "audience_relevance",
                  description := "Assesses how well the content addresses the needs and interests of the target audience",
                  category := "engagement", weight := (0.35 : ℚ) },
      score := (4.1 : ℚ),
      reasoning := "The content directly addresses the primary concerns of the target audience with relevant examples and applications specific to their industry.",
      improvement_advice := "Consider adding more content specifically addressing the needs of small business users, as the current focus seems to be on enterprise applications.",
      positive_examples := ["For marketing teams struggling with content consistency, this feature provides automated quality checks."],
      improvement_examples := ["This solution offers robust enterprise-grade security features."],
      confidence := (0.9 : ℚ) },
    { metric := { name := "tone_appropriateness",
                  description := "Evaluates whether the writing tone matches the content purpose and audience expectations",
                  category := "engagement", weight := (0.25 : ℚ) },
      score := (3.8 : ℚ),
      reasoning := "The tone is generally professional while remaining accessible, which aligns well with the informational purpose of the content.",
      improvement_advice := "Consider warming up the tone slightly in the introduction and conclusion to create a more inviting reading experience.",
      positive_examples := ["We understand the challenges you're facing with data management, and we're here to help."],
      improvement_examples := ["The aforementioned methodology facilitates optimal utilization of computational resources."],
      confidence := (0.85 : ℚ) },
    { metric := { name := "topic_coverage",
                  description := "Assesses how thoroughly the content covers all relevant aspects of the topic",
                  category := "completeness", weight := (0.4 : ℚ) },
      score := (3.5 : ℚ),
      reasoning := "The content covers most key aspects of the topic but could expand on certain important areas. The core functionality is well-explained, but some peripheral features receive limited attention.",
      improvement_advice := "Add a section addressing integration capabilities with third-party tools, which is currently missing from the overview.",
      positive_examples := ["The solution includes comprehensive reporting features, with 15 pre-built report templates and a custom report builder."],
      improvement_examples := ["The system includes various integration options."],
      confidence := (0.83 : ℚ) },
    { metric := { name := "sentence_structure",
                  description := "Evaluates the construction and variety of sentences for readability",
                  category := "readability", weight := (0.3 : ℚ) },
      score := (4.2 : ℚ),
      reasoning := "The content uses a good mix of sentence structures and lengths, creating a natural reading rhythm without becoming monotonous.",
      improvement_advice := "Consider breaking up a few of the longer sentences in the technical specifications section to improve readability.",
      positive_examples := ["The dashboard displays key metrics. Users can customize these displays to highlight their priorities."],
      improvement_examples := ["The system architecture consists of a front-end interface built with React that communicates with a Node.js backend which processes requests and interfaces with a PostgreSQL database that stores all user data and configuration settings along with usage analytics."],
      confidence := (0.91 : ℚ) }
  ]
  content_hash := "a1b2c3d4e5f6g7h8i9j0"
  timestamp := "2025-07-18T15:30:00Z"
  metadata := { metrics_evaluated := (15 : ℚ), evaluation_time := (3.2 : ℚ),
                model_used := "gpt-4" }

/-- The initial private settings field of MockApiClient. -/
def mockInitialSettings : AppConfig where
  llm := { provider := .openai, model_name := "gpt-4",
           api_key := some "sk-mock-key", base_url := none }
  guidelines_path := "/path/to/guidelines"
  reports_dir := "/path/to/reports"

/-- The reports dictionary of MockApiClient (a JS object keyed by report
id), modelled as an association list in insertion order. -/
abbrev ReportStore := List (String × EvaluationResult)

/-- Property read reports[k]: the value stored at key k, if any. -/
def ReportStore.findVal : ReportStore → String → Option EvaluationResult
  | [], _ => none
  | p :: ps, k => if p.fst == k then some p.snd else ReportStore.findVal ps k

/-- Property write reports[k] = v: overwrite the binding when the key is
present, otherwise append it. -/
def ReportStore.set : ReportStore → String → EvaluationResult → ReportStore
  | [], k, v => [(k, v)]
  | p :: ps, k, v =>
    if p.fst == k then (k, v) :: ps else p :: ReportStore.set ps k v

/-- Mutable state of the MockApiClient singleton: its settings and its
reports dictionary (the samples array is immutable). -/
structure MockState where
  settings : AppConfig
  reports : ReportStore
deriving DecidableEq

/-- The state of the freshly constructed MockApiClient: initial settings
and reports = \x7b 'default': sampleReport \x7d. -/
def initialMockState : MockState where
  settings := mockInitialSettings
  reports := [("default", sampleReport)]

/-- Errors thrown by MockApiClient operations. -/
inductive MockError where
  | simulated
  | reportNotFound (reportId : String)
  | sampleNotFound (sampleId : String)
deriving DecidableEq

/-- simulateRandomError: throws with 10 percent probability; the
Math.random() draw is the explicit argument roll. -/
def simulateRandomError (roll : ℚ) : Except MockError Unit :=
  if roll < 1 / 10 then .error .simulated else .ok ()

/-- MockApiClient.evaluateContent: after the simulated-error roll, build
reportId = "report_" + Date.now() + "_" + an 8-character random suffix,
deep-clone the imported sampleReport, overwrite its content_hash with the
reportId, its timestamp with new Date().toISOString() (argument nowIso),
and its metadata.evaluation_time with 2 + Math.random() * 3, store the
report under reportId and return it.  The submitted content is not read. -/
def evaluateContent (st : MockState) (content : String) (now : Nat)
    (randSuffix : String) (nowIso : String) (randTime : ℚ) (roll : ℚ) :
    Except MockError (EvaluationResult × MockState) :=
  match simulateRandomError roll with
  | .error e => .error e
  | .ok _ =>
    let reportId := "report_" ++ toString now ++ "_" ++ randSuffix
    let report := { sampleReport with
      content_hash := reportId
      timestamp := nowIso
      metadata := { sampleReport.metadata with evaluation_time := 2 + randTime * 3 } }
    .ok (report, { st with reports := st.reports.set reportId report })

/-- MockApiClient.getReport: reports[reportId] || reports['default'];
throw "Report not found" only if that is still undefined. -/
def getReport (st : MockState) (reportId : String) (roll : ℚ) :
    Except MockError EvaluationResult :=
  match simulateRandomError roll with
  | .error e => .error e
  | .ok _ =>
    match (st.reports.findVal reportId).orElse (fun _ => st.reports.findVal "default") with
    | some report => .ok report
    | none => .error (.reportNotFound reportId)

/-! ### Number and string rendering used by the export paths

JS template strings coerce numbers with Number.prototype.toString; on the
finite decimal values the app handles this prints the decimal expansion
without trailing zeros.  jsNumToString reproduces that on rationals whose
decimal expansion terminates within the fuel bound. -/

/-- Decimal digits of the fraction num / den (with num < den), most
significant first, by long division, up to the fuel bound. -/
def decimalDigits : Nat → Nat → Nat → List Char
  | 0, _, _ => []
  | fuel + 1, num, den =>
    if num = 0 then []
    else Char.ofNat (48 + num * 10 / den) :: decimalDigits fuel (num * 10 % den) den

/-- JS number-to-string coercion on finite decimals: optional sign,
integer part, and the fractional digits when nonzero, computed by long
division on the reduced numerator and denominator. -/
def jsNumToString (q : ℚ) : String :=
  let sign := if q.num < 0 then "-" else ""
  let nabs := q.num.natAbs
  sign ++ toString (nabs / q.den) ++
    (if nabs % q.den = 0 then ""
     else "." ++ String.mk (decimalDigits 20 (nabs % q.den) q.den))

/-! ### JSON.stringify(report, null, 2) (the json export branch) -/

/-- A JSON value: string, number, array or object (fields in order). -/
inductive JValue where
  | str (s : String)
  | num (q : ℚ)
  | arr (elems : List JValue)
  | obj (fields : List (String × JValue))

/-- JSON string escaping as in JSON.stringify: quote, backslash and
control characters. -/
def escapeJsonChar (c : Char) : String :=
  if c = '"' then "\\\""
  else if c = '\\' then "\\\\"
  else if c = '\n' then "\\n"
  else if c = '\t' then "\\t"
  else if c = '\r' then "\\r"
  else String.singleton c

/-- A JSON string literal with its surrounding quotes. -/
def jsonString (s : String) : String :=
  "\"" ++ String.join (s.toList.map escapeJsonChar) ++ "\""

/-- indent spaces, as produced by JSON.stringify with indent 2. -/
def spaces (n : Nat) : String := String.mk (List.replicate n ' ')

mutual

/-- Rendering of a JSON value at the given indentation depth, following
the layout of JSON.stringify(v, null, 2). -/
def jvalueToString (indent : Nat) : JValue → String
  | .str s => jsonString s
  | .num q => jsNumToString q
  | .arr [] => "[]"
  | .arr (e :: es) =>
    "[\n" ++ jarrayItems (indent + 2) (e :: es) ++ "\n" ++ spaces indent ++ "]"
  | .obj [] => "\x7b\x7d"
  | .obj (f :: fs) =>
    "\x7b\n" ++ jobjectItems (indent + 2) (f :: fs) ++ "\n" ++ spaces indent ++ "\x7d"

/-- Comma-and-newline separated array items, each indented. -/
def jarrayItems (indent : Nat) : List JValue → String
  | [] => ""
  | [e] => spaces indent ++ jvalueToString indent e
  | e :: e2 :: es =>
    spaces indent ++ jvalueToString indent e ++ ",\n" ++ jarrayItems indent (e2 :: es)

/-- Comma-and-newline separated object fields, each indented. -/
def jobjectItems (indent : Nat) : List (String × JValue) → String
  | [] => ""
  | [(k, v)] => spaces indent ++ jsonString k ++ ": " ++ jvalueToString indent v
  | (k, v) :: f :: fs =>
    spaces indent ++ jsonString k ++ ": " ++ jvalueToString indent v ++ ",\n" ++
      jobjectItems indent (f :: fs)

end

/-- The JSON object for a Metric, fields in the order of the report data. -/
def metricToJValue (m : Metric) : JValue :=
  .obj [("name", .str m.name), ("description", .str m.description),
        ("category", .str m.category), ("weight", .num m.weight)]

/-- The JSON object for a MetricResult, fields in the order of the report
data. -/
def metricResultToJValue (r : MetricResult) : JValue :=
  .obj [("metric", metricToJValue r.metric),
        ("score", .num r.score),
        ("reasoning", .str r.reasoning),
        ("improvement_advice", .str r.improvement_advice),
        ("positive_examples", .arr (r.positive_examples.map .str)),
        ("improvement_examples", .arr (r.improvement_examples.map .str)),
        ("confidence", .num r.confidence)]

/-- The JSON object for an EvaluationResult, fields in the order of the
report data. -/
def reportToJValue (r : EvaluationResult) : JValue :=
  .obj [("overall_score", .num r.overall_score),
        ("category_scores", .obj (r.category_scores.map (fun p => (p.fst, .num p.snd)))),
        ("metric_results", .arr (r.metric_results.map metricResultToJValue)),
        ("content_hash", .str r.content_hash),
        ("timestamp", .str r.timestamp),
        ("metadata", .obj [("metrics_evaluated", .num r.metadata.metrics_evaluated),
                           ("evaluation_time", .num r.metadata.evaluation_time),
                           ("model_used", .str r.metadata.model_used)])]

/-- JSON.stringify(report, null, 2), the json export branch of
MockApiClient.exportReport. -/
def stringifyReport (r : EvaluationResult) : String :=
  jvalueToString 0 (reportToJValue r)

/-- One "### name (score/5)" subsection of the markdown export, exactly as
concatenated in MockApiClient.exportReport. -/
def metricSection (r : MetricResult) : String :=
  "### " ++ r.metric.name ++ " (" ++ jsNumToString r.score ++ "/5)\n\n" ++
  "**Category:** " ++ r.metric.category ++ "\n\n" ++
  "**Reasoning:** " ++ r.reasoning ++ "\n\n" ++
  "**Improvement Advice:** " ++ r.improvement_advice ++ "\n\n"

/-- The markdown document generated by MockApiClient.exportReport for the
markdown format: title, overall score, timestamp, one list line per
category score, and the joined metric subsections. -/
def reportMarkdown (report : EvaluationResult) : String :=
  "# Content Evaluation Report\n\n" ++
  "## Overall Score: " ++ jsNumToString report.overall_score ++ "/5\n\n" ++
  "Generated on: " ++ report.timestamp ++ "\n\n" ++
  "## Category Scores\n\n" ++
  String.intercalate "\n"
    (report.category_scores.map
      (fun p => "- " ++ p.fst ++ ": " ++ jsNumToString p.snd ++ "/5")) ++
  "\n\n## Detailed Metrics\n\n" ++
  String.intercalate "\n" (report.metric_results.map metricSection)

/-- The two export formats accepted by exportReport. -/
inductive ExportFormat where
  | json
  | markdown
deriving DecidableEq

/-- MockApiClient.exportReport: look up reports[reportId] ||
reports['default'], throw "Report not found" only when still undefined,
then return the JSON serialization or the generated markdown (the Blob
content is the returned string). -/
def exportReport (st : MockState) (reportId : String) (format : ExportFormat)
    (roll : ℚ) : Except MockError String :=
  match simulateRandomError roll with
  | .error e => .error e
  | .ok _ =>
    match (st.reports.findVal reportId).orElse (fun _ => st.reports.findVal "default") with
    | none => .error (.reportNotFound reportId)
    | some report =>
      match format with
      | .json => .ok (stringifyReport report)
      | .markdown => .ok (reportMarkdown report)

/-- MockApiClient.getSettings: returns a copy of the current settings. -/
def getSettings (st : MockState) (roll : ℚ) : Except MockError AppConfig :=
  match simulateRandomError roll with
  | .error e => .error e
  | .ok _ => .ok st.settings

/-- MockApiClient.updateSettings: this.settings = \x7b ...this.settings,
...settings, llm: \x7b ...this.settings.llm, ...(settings.llm || \x7b\x7d) \x7d \x7d
and return a copy of the new settings.  A spread copies exactly the fields
present in the request, so an absent field (none) keeps the old value. -/
def updateSettings (st : MockState) (req : UpdateSettingsRequest) (roll : ℚ) :
    Except MockError (AppConfig × MockState) :=
  match simulateRandomError roll with
  | .error e => .error e
  | .ok _ =>
    let newLlm : LLMConfig :=
      match req.llm with
      | none => st.settings.llm
      | some l =>
        { provider := l.provider
          model_name := l.model_name
          api_key := l.api_key.orElse (fun _ => st.settings.llm.api_key)
          base_url := l.base_url.orElse (fun _ => st.settings.llm.base_url) }
    let newSettings : AppConfig :=
      { llm := newLlm
        guidelines_path := req.guidelines_path.getD st.settings.guidelines_path
        reports_dir := req.reports_dir.getD st.settings.reports_dir }
    .ok (newSettings, { st with settings := newSettings })

/-- States of the MockApiClient reachable from construction through its
state-changing operations. -/
inductive Reachable : MockState → Prop where
  | init : Reachable initialMockState
  | eval (st : MockState) (content : String) (now : Nat) (randSuffix nowIso : String)
      (randTime roll : ℚ) (r : EvaluationResult) (st2 : MockState) :
      Reachable st →
      evaluateContent st content now randSuffix nowIso randTime roll = .ok (r, st2) →
      Reachable st2
  | update (st : MockState) (req : UpdateSettingsRequest) (roll : ℚ)
      (cfg : AppConfig) (st2 : MockState) :
      Reachable st →
      updateSettings st req roll = .ok (cfg, st2) →
      Reachable st2

/-! ## AnalyzePage.handleAnalyze (src/pages/AnalyzePage.tsx) -/

/-- Whitespace trimmed by String.prototype.trim (the characters relevant
to this app: space, tab, newline, carriage return, form feed, vertical
tab). -/
def isJsWhitespace (c : Char) : Bool :=
  c = ' ' || c = '\t' || c = '\n' || c = '\r' || c = '\x0c' || c = '\x0b'

/-- content.trim(): strip leading and trailing whitespace. -/
def jsTrim (s : String) : String :=
  String.mk (((s.toList.dropWhile isJsWhitespace).reverse.dropWhile isJsWhitespace).reverse)

/-- customLLMConfig.api_key || undefined : an empty (falsy) string becomes
undefined. -/
def orUndefined (o : Option String) : Option String :=
  match o with
  | some s => if s = "" then none else some s
  | none => none

/-- What one click of the Analyze button does before anything async:
either an early return with a destructive toast, or a call to
apiClient.evaluateContent with the request it builds. -/
inductive AnalyzeOutcome where
  | missingContent
  | tooShort
  | callEvaluate (request : EvaluateContentRequest)
deriving DecidableEq

/-- AnalyzePage.handleAnalyze, up to the evaluateContent call: reject when
content.trim() is empty and no file is selected; reject when
content.trim().length < 50; otherwise build the request (content, plus the
custom llm block when useCustomModel is set, with falsy api_key and
base_url mapped to undefined) and call apiClient.evaluateContent. -/
def handleAnalyze (content : String) (hasFile : Bool) (useCustomModel : Bool)
    (customLLMConfig : LLMConfig) : AnalyzeOutcome :=
  if (jsTrim content).isEmpty && !hasFile then .missingContent
  else if (jsTrim content).length < 50 then .tooShort
  else
    .callEvaluate
      { content := content
        llm := if useCustomModel then
            some { provider := customLLMConfig.provider
                   model_name := customLLMConfig.model_name
                   api_key := orUndefined customLLMConfig.api_key
                   base_url := orUndefined customLLMConfig.base_url }
          else none }

/-! ## Line structure of the markdown export (used to state C8) -/

/-- Split a character list at newline characters (the semantics of
splitting the markdown document into lines). -/
def splitLines : List Char → List (List Char)
  | [] => [[]]
  | c :: cs =>
    let rest := splitLines cs
    if c = '\n' then [] :: rest
    else
      match rest with
      | [] => [[c]]
      | l :: ls => (c :: l) :: ls

/-- The lines of a document. -/
def mdLines (md : String) : List String :=
  (splitLines md.toList).map (fun l => String.mk l)

/-- A markdown heading line: one that starts with '#'. -/
def isHeading (line : String) : Bool :=
  match line.toList with
  | '#' :: _ => true
  | [] => false
  | _ :: _ => false

/-- Whether needle occurs as a contiguous run inside hay. -/
def containsRun (hay needle : List Char) : Bool :=
  match hay with
  | [] => needle.isEmpty
  | _ :: t => needle.isPrefixOf hay || containsRun t needle

/-- Whether the document has a heading line mentioning the given category
name. -/
def hasCategoryHeading (md : String) (cat : String) : Bool :=
  (mdLines md).any (fun l => isHeading l && containsRun l.toList cat.toList)

/-! ## Spec-modelled evaluation core

The evaluation orchestration engine itself (Coordinator, MetricEvaluator)
is backend code that is not part of src/; only its data shapes, the design
sketch and generated reports appear in the repository.  The definitions
below are modelled from the spec. -/

/-- Modelled from the spec: the status of a MetricResult, Ok or
Failed(reason) (spec section 3); absent from the shipped TypeScript
MetricResult. -/
inductive MetricStatus where
  | ok
  | failed (reason : String)
deriving DecidableEq

/-- Modelled from the spec: a MetricResult as the Coordinator aggregates
it — its metric, its score and its status (spec section 3). -/
structure SpecMetricResult where
  metric : Metric
  score : ℚ
  status : MetricStatus
deriving DecidableEq

/-- Modelled from the spec: one category of the GuidelinesModel with its
weight and its metrics (spec section 3). -/
structure SpecCategory where
  name : String
  weight : ℚ
  metrics : List Metric
deriving DecidableEq

/-- Modelled from the spec: the GuidelinesModel as an ordered mapping from
category to weight and metrics. -/
abbrev GuidelinesModel := List SpecCategory

/-- The metric results of one category with status Ok (the results the
spec admits into the category score). -/
def okResults (results : List SpecMetricResult) (cat : String) : List SpecMetricResult :=
  results.filter (fun r => r.metric.category == cat && r.status == MetricStatus.ok)

/-- Modelled from the spec: the Coordinator category score, computed in
one accumulation pass over the results — sum of weight * score and sum of
weight over the Ok results of the category; none (absent, not zero) when
the category has no Ok result (spec section 4.3). -/
def categoryScore (results : List SpecMetricResult) (cat : String) : Option ℚ :=
  let acc := results.foldl
    (fun acc r =>
      if r.metric.category == cat && r.status == MetricStatus.ok then
        (acc.1 + r.metric.weight, acc.2.1 + r.metric.weight * r.score, acc.2.2 + 1)
      else acc)
    ((0 : ℚ), (0 : ℚ), (0 : Nat))
  if acc.2.2 = 0 then none else some (acc.2.1 / acc.1)

/-- Modelled from the spec: the Coordinator overall score, accumulated
over the categories with a defined category score; none when every
category is undefined (the AllMetricsFailed case, spec section 4.3). -/
def overallScore (g : GuidelinesModel) (results : List SpecMetricResult) : Option ℚ :=
  let acc := g.foldl
    (fun acc c =>
      match categoryScore results c.name with
      | some s => (acc.1 + c.weight, acc.2.1 + c.weight * s, acc.2.2 + 1)
      | none => acc)
    ((0 : ℚ), (0 : ℚ), (0 : Nat))
  if acc.2.2 = 0 then none else some (acc.2.1 / acc.1)

/-- Modelled from the spec: the raw structured judgment returned by the
judge for one metric — its score field is none when the judge response has
no numeric score (spec sections 2 and 4.2). -/
structure RawJudgment where
  score : Option ℤ
  reasoning : String
  improvement_advice : String
deriving DecidableEq

/-- Modelled from the spec: the failure modes of parsing a raw judgment. -/
inductive ParseFailure where
  | nonNumericScore
  | scoreOutOfRange (s : ℤ)
deriving DecidableEq

/-- Modelled from the spec: MetricEvaluator parsing of a raw judgment —
the score must be an integer in [1, 5]; a non-numeric or out-of-range
score is a parse failure, never clamped (spec section 4.2). -/
def parseJudgment (m : Metric) (raw : RawJudgment) : Except ParseFailure SpecMetricResult :=
  match raw.score with
  | none => .error .nonNumericScore
  | some s =>
    if 1 ≤ s ∧ s ≤ 5 then .ok { metric := m, score := (s : ℚ), status := .ok }
    else .error (.scoreOutOfRange s)

/-! ## Shared helper lemmas -/

/-- The simulated-error roll succeeds exactly when it is at least 1/10. -/
theorem simulateRandomError_ok {roll : ℚ} (h : ¬ roll < 1 / 10) :
    simulateRandomError roll = .ok () := by
  unfold simulateRandomError
  exact if_neg h

/-- A roll of 1 never triggers the simulated error. -/
theorem simulateRandomError_one : simulateRandomError 1 = .ok () :=
  simulateRandomError_ok (by norm_num)

/-- The simulated-error roll either succeeds or throws the simulated
error; no other outcome exists. -/
theorem simulateRandomError_cases (roll : ℚ) :
    simulateRandomError roll = .ok () ∨ simulateRandomError roll = .error .simulated := by
  unfold simulateRandomError
  split
  · exact Or.inr rfl
  · exact Or.inl rfl

/-! ## Claims -/

/-- Claim C3: for every submission whose trimmed content is shorter than 50
characters (the empty string included), handleAnalyze returns before the
evaluation request is issued: apiClient.evaluateContent is never called. -/
theorem handleAnalyze_rejects_short_content (content : String)
    (hasFile useCustomModel : Bool) (customLLMConfig : LLMConfig)
    (h : (jsTrim content).length < 50) :
    ∀ request, handleAnalyze content hasFile useCustomModel customLLMConfig ≠
      AnalyzeOutcome.callEvaluate request := by
  intro request
  unfold handleAnalyze
  by_cases h1 : (jsTrim content).isEmpty && !hasFile
  · simp [h1]
  · simp [h1, h]

/-- Witness for C3: the empty submission with no file is rejected before
any evaluateContent call. -/
theorem handleAnalyze_rejects_short_content_witness :
    (jsTrim "").length < 50 ∧
    handleAnalyze "" false false
        { provider := .openai, model_name := "gpt-4.1-2025-04-14",
          api_key := some "", base_url := some "" } ≠
      AnalyzeOutcome.callEvaluate { content := "", llm := none } :=
  ⟨by decide,
   handleAnalyze_rejects_short_content "" false false
     { provider := .openai, model_name := "gpt-4.1-2025-04-14",
       api_key := some "", base_url := some "" } (by decide)
     { content := "", llm := none }⟩

/-- Counterexample to C5: the first retry waits 3000 + jitter milliseconds
(3500 at jitter draw 1/2), which is neither 2000 * 2^1 + jitter = 4500 nor
2000 * 2^0 + jitter = 2500, so the delay is not base delay times 2 to the
attempt number plus jitter. -/
theorem getRetryDelay_not_exponential :
    getRetryDelay 1 (1 / 2) = 3500 ∧
    BASE_RETRY_DELAY * (2 : ℚ) ^ (1 : ℕ) + (1 / 2) * 1000 = 4500 ∧
    BASE_RETRY_DELAY * (2 : ℚ) ^ (0 : ℕ) + (1 / 2) * 1000 = 2500 ∧
    (3500 : ℚ) ≠ 4500 ∧ (3500 : ℚ) ≠ 2500 := by
  refine ⟨by norm_num [getRetryDelay], by norm_num [BASE_RETRY_DELAY],
    by norm_num [BASE_RETRY_DELAY], by norm_num, by norm_num⟩

/-- Claim C5 as amended: the first retry waits 3000 + jitter and the second
4000 + jitter milliseconds (jitter = rand * 1000 with rand drawn in
[0, 1)); only for retry counts of at least 3, which cannot occur with
MAX_RETRIES = 2, is the delay min(2000 * 2^(n-1) + jitter, 10000). -/
theorem getRetryDelay_schedule (rand : ℚ) (n : Nat) (h : 3 ≤ n) :
    getRetryDelay 1 rand = 3000 + rand * 1000 ∧
    getRetryDelay 2 rand = 4000 + rand * 1000 ∧
    getRetryDelay n rand =
      min (BASE_RETRY_DELAY * (2 : ℚ) ^ (n - 1) + rand * 1000) 10000 := by
  refine ⟨by simp [getRetryDelay], by simp [getRetryDelay], ?_⟩
  unfold getRetryDelay
  rw [if_neg (by omega), if_neg (by omega)]
  congr 2
  rw [show ((n : ℤ) - 1) = ((n - 1 : ℕ) : ℤ) by omega, zpow_natCast]

/-- Witness for C5 as amended: at retry count 3 with zero jitter the delay
is the capped exponential backoff value. -/
theorem getRetryDelay_schedule_witness :
    (3 ≤ 3) = True ∧
    getRetryDelay 3 0 = min (BASE_RETRY_DELAY * (2 : ℚ) ^ (3 - 1 : ℕ) + 0 * 1000) 10000 :=
  ⟨by simp, (getRetryDelay_schedule 0 3 (by norm_num)).2.2⟩

/-- Claim C7: a parsed judgment accepted as Ok has an integer score between
1 and 5 equal to the raw score, and a non-numeric or out-of-range raw score
is a parse failure, never clamped into range. -/
theorem parseJudgment_score_bounds (m : Metric) (raw : RawJudgment) :
    (∀ r, parseJudgment m raw = .ok r →
      r.status = MetricStatus.ok ∧
      (∃ s : ℤ, raw.score = some s ∧ r.score = (s : ℚ)) ∧
      1 ≤ r.score ∧ r.score ≤ 5) ∧
    (raw.score = none → parseJudgment m raw = .error .nonNumericScore) ∧
    (∀ s : ℤ, raw.score = some s → s < 1 ∨ 5 < s →
      parseJudgment m raw = .error (.scoreOutOfRange s)) := by
  refine ⟨?_, ?_, ?_⟩
  · intro r hr
    unfold parseJudgment at hr
    split at hr
    · exact Except.noConfusion hr
    · next s hs =>
        split at hr
        · next hb =>
            cases hr
            refine ⟨rfl, ⟨s, hs, rfl⟩, ?_, ?_⟩
            · show (1 : ℚ) ≤ (s : ℚ)
              exact_mod_cast hb.1
            · show (s : ℚ) ≤ 5
              exact_mod_cast hb.2
        · exact Except.noConfusion hr
  · intro hs
    unfold parseJudgment
    rw [hs]
  · intro s hs hout
    unfold parseJudgment
    rw [hs]
    exact if_neg (by omega)

/-- Witness for C7: a raw score of 6 is rejected as out of range, a raw
score of 4 is accepted with status Ok and score 4. -/
theorem parseJudgment_score_bounds_witness :
    parseJudgment { name := "conciseness", description := "d", category := "clarity", weight := 1 }
        { score := some 6, reasoning := "r", improvement_advice := "a" } =
      .error (.scoreOutOfRange 6) ∧
    (1 : ℚ) ≤ 4 ∧ (4 : ℚ) ≤ 5 := by
  refine ⟨?_, by norm_num, by norm_num⟩
  exact (parseJudgment_score_bounds
    { name := "conciseness", description := "d", category := "clarity", weight := 1 }
    { score := some 6, reasoning := "r", improvement_advice := "a" }).2.2 6 rfl (by omega)

/-- Helper: a requestWithRetry run makes at most retries + 1 attempts. -/
theorem requestWithRetry_attempts_le {T : Type} (attempt : Nat → ReqOutcome T)
    (rand : Nat → ℚ) (retries idx : Nat) :
    (requestWithRetry attempt rand retries idx).attempts ≤ retries + 1 := by
  induction retries generalizing idx with
  | zero =>
    rw [requestWithRetry]
    cases attempt idx with
    | ok v => simp
    | err e => simp
  | succ r ih =>
    rw [requestWithRetry]
    cases attempt idx with
    | ok v => simp
    | err e =>
      cases hb : e.isAxiosError && isRetryableError e with
      | true =>
        simp only [hb, if_true]
        have := ih (idx + 1)
        omega
      | false => simp [hb]

/-- Claim C4: at most MAX_RETRIES = 2 retries are performed (at most 3
attempts in total); the error classification retries exactly the transient
failures — no response, ECONNABORTED, ECONNREFUSED, or HTTP status 408,
429, 500, 502, 503 or 504 — and a failure whose first attempt is not an
axios error or not retryable (for example a 401 response) is rethrown
immediately after a single attempt. -/
theorem retry_policy (T : Type) :
    (∀ (attempt : Nat → ReqOutcome T) (rand : Nat → ℚ) (idx : Nat),
      (requestWithRetry attempt rand MAX_RETRIES idx).attempts ≤ 3) ∧
    (∀ e : AxiosError, isRetryableError e = true ↔
      (e.response = none ∨ e.code = some "ECONNABORTED" ∨ e.code = some "ECONNREFUSED" ∨
       ∃ s, e.response = some s ∧ s ∈ retryableStatuses)) ∧
    (∀ (attempt : Nat → ReqOutcome T) (rand : Nat → ℚ) (retries idx : Nat) (e : AxiosError),
      attempt idx = .err e →
      (¬ (e.isAxiosError = true ∧ isRetryableError e = true) →
        requestWithRetry attempt rand retries idx = ⟨.error e, 1, []⟩) ∧
      (∀ r, retries = r + 1 → e.isAxiosError = true → isRetryableError e = true →
        (requestWithRetry attempt rand retries idx).attempts =
          (requestWithRetry attempt rand r (idx + 1)).attempts + 1)) := by
  refine ⟨?_, ?_, ?_⟩
  · intro attempt rand idx
    exact requestWithRetry_attempts_le attempt rand MAX_RETRIES idx
  · intro e
    unfold isRetryableError
    cases hresp : e.response with
    | none => simp [hresp]
    | some status =>
      cases hcode : e.code with
      | none => simp [hresp, hcode, retryableStatuses]
      | some c =>
        by_cases hc1 : c = "ECONNABORTED"
        · simp [hresp, hcode, hc1]
        · by_cases hc2 : c = "ECONNREFUSED"
          · simp [hresp, hcode, hc2]
          · simp [hresp, hcode, hc1, hc2, retryableStatuses]
  · intro attempt rand retries idx e hatt
    constructor
    · intro hnot
      have hb : (e.isAxiosError && isRetryableError e) = false := by
        cases ha : e.isAxiosError <;> cases hr : isRetryableError e <;> simp_all
      cases retries with
      | zero => rw [requestWithRetry, hatt]
      | succ r => rw [requestWithRetry, hatt]; simp [hb]
    · intro r hr ha hrty
      subst hr
      rw [requestWithRetry, hatt]
      simp [ha, hrty]

/-- Witness for C4: a 401 response is not retryable and is rethrown after
one attempt, a 503 response is classified retryable, and a run over
persistent 503 failures stops after 3 attempts. -/
theorem retry_policy_witness :
    @requestWithRetry Unit (fun _ => ReqOutcome.err ⟨true, some 401, none⟩) (fun _ => 0)
        MAX_RETRIES 0 =
      ⟨Except.error ⟨true, some 401, none⟩, 1, []⟩ ∧
    isRetryableError ⟨true, some 503, none⟩ = true ∧
    (@requestWithRetry Unit (fun _ => ReqOutcome.err ⟨true, some 503, none⟩) (fun _ => 0)
        MAX_RETRIES 0).attempts ≤ 3 := by
  have h := retry_policy Unit
  refine ⟨?_, ?_, ?_⟩
  · exact ((h.2.2 (fun _ => ReqOutcome.err ⟨true, some 401, none⟩) (fun _ => 0)
      MAX_RETRIES 0 ⟨true, some 401, none⟩ rfl).1 (by decide))
  · exact (h.2.1 ⟨true, some 503, none⟩).2 (by decide)
  · exact h.1 (fun _ => ReqOutcome.err ⟨true, some 503, none⟩) (fun _ => 0) 0

/-- Claim C10: updateSettings changes only the fields present in the
request — an absent llm keeps the whole previous llm, a supplied llm
shallow-merges field by field over the previous llm (absent sub-fields
keep their previous values), guidelines_path and reports_dir are unchanged
when absent — the reports store is untouched, and the returned AppConfig
equals the newly stored settings. -/
theorem updateSettings_frame (st : MockState) (req : UpdateSettingsRequest) (roll : ℚ)
    (cfg : AppConfig) (st2 : MockState)
    (h : updateSettings st req roll = .ok (cfg, st2)) :
    cfg = st2.settings ∧
    st2.reports = st.reports ∧
    (req.llm = none → st2.settings.llm = st.settings.llm) ∧
    (∀ l, req.llm = some l →
      st2.settings.llm.provider = l.provider ∧
      st2.settings.llm.model_name = l.model_name ∧
      (l.api_key = none → st2.settings.llm.api_key = st.settings.llm.api_key) ∧
      (∀ k, l.api_key = some k → st2.settings.llm.api_key = some k) ∧
      (l.base_url = none → st2.settings.llm.base_url = st.settings.llm.base_url) ∧
      (∀ u, l.base_url = some u → st2.settings.llm.base_url = some u)) ∧
    (req.guidelines_path = none → st2.settings.guidelines_path = st.settings.guidelines_path) ∧
    (∀ p, req.guidelines_path = some p → st2.settings.guidelines_path = p) ∧
    (req.reports_dir = none → st2.settings.reports_dir = st.settings.reports_dir) ∧
    (∀ d, req.reports_dir = some d → st2.settings.reports_dir = d) := by
  unfold updateSettings at h
  cases hse : simulateRandomError roll with
  | error e => rw [hse] at h; exact Except.noConfusion h
  | ok u =>
    rw [hse] at h
    simp only [Except.ok.injEq, Prod.mk.injEq] at h
    obtain ⟨hcfg, hst⟩ := h
    subst hst
    refine ⟨hcfg.symm ▸ rfl, rfl, ?_, ?_, ?_, ?_, ?_, ?_⟩
    · intro hnone
      simp [hnone]
    · intro l hl
      refine ⟨by simp [hl], by simp [hl], ?_, ?_, ?_, ?_⟩
      · intro hk; simp [hl, hk, Option.orElse]
      · intro k hk; simp [hl, hk, Option.orElse]
      · intro hu; simp [hl, hu, Option.orElse]
      · intro u hu; simp [hl, hu, Option.orElse]
    · intro hnone; simp [hnone]
    · intro p hp; simp [hp]
    · intro hnone; simp [hnone]
    · intro d hd; simp [hd]

/-- Witness for C10: the update from tests/api.test.ts — switching llm to
ollama/llama2 with a base_url and no api_key — keeps the previous api_key
and the previous paths, and returns exactly the stored settings. -/
theorem updateSettings_frame_witness :
    updateSettings initialMockState
        { llm := some { provider := .ollama, model_name := "llama2",
                        api_key := none, base_url := some "http://localhost:11434" },
          guidelines_path := none, reports_dir := none } 1 =
      .ok ({ llm := { provider := .ollama, model_name := "llama2",
                      api_key := some "sk-mock-key",
                      base_url := some "http://localhost:11434" },
             guidelines_path := "/path/to/guidelines",
             reports_dir := "/path/to/reports" },
           { settings := { llm := { provider := .ollama, model_name := "llama2",
                                    api_key := some "sk-mock-key",
                                    base_url := some "http://localhost:11434" },
                           guidelines_path := "/path/to/guidelines",
                           reports_dir := "/path/to/reports" },
             reports := [("default", sampleReport)] }) ∧
    ((⟨{ llm := { provider := .ollama, model_name := "llama2",
                  api_key := some "sk-mock-key",
                  base_url := some "http://localhost:11434" },
         guidelines_path := "/path/to/guidelines",
         reports_dir := "/path/to/reports" },
       [("default", sampleReport)]⟩ : MockState).settings.llm.api_key =
      initialMockState.settings.llm.api_key) := by
  have heq : updateSettings initialMockState
      { llm := some { provider := .ollama, model_name := "llama2",
                      api_key := none, base_url := some "http://localhost:11434" },
        guidelines_path := none, reports_dir := none } 1 =
      .ok ({ llm := { provider := .ollama, model_name := "llama2",
                      api_key := some "sk-mock-key",
                      base_url := some "http://localhost:11434" },
             guidelines_path := "/path/to/guidelines",
             reports_dir := "/path/to/reports" },
           { settings := { llm := { provider := .ollama, model_name := "llama2",
                                    api_key := some "sk-mock-key",
                                    base_url := some "http://localhost:11434" },
                           guidelines_path := "/path/to/guidelines",
                           reports_dir := "/path/to/reports" },
             reports := [("default", sampleReport)] }) := by
    unfold updateSettings
    rw [simulateRandomError_one]
    simp [initialMockState, mockInitialSettings, Option.orElse]
  have h := updateSettings_frame initialMockState
    { llm := some { provider := .ollama, model_name := "llama2",
                    api_key := none, base_url := some "http://localhost:11434" },
      guidelines_path := none, reports_dir := none } 1 _ _ heq
  exact ⟨heq, ((h.2.2.2.1 _ rfl).2.2.1 rfl).trans rfl⟩

/-- The content_hash of the report returned by a successful evaluateContent
call. -/
def reportHashOf (e : Except MockError (EvaluationResult × MockState)) : Option String :=
  match e with
  | .ok p => some p.1.content_hash
  | .error _ => none

/-- Counterexample to C2: two submissions with byte-identical content,
made at Date.now() = 1 and Date.now() = 2 with the same random draws,
receive different content_hash values — the fingerprint depends on the
submission time, not on the content. -/
theorem content_hash_differs_for_identical_content :
    reportHashOf (evaluateContent initialMockState "identical content" 1 "abcd1234"
        "2025-07-18T12:00:00Z" 0 1) = some "report_1_abcd1234" ∧
    reportHashOf (evaluateContent initialMockState "identical content" 2 "abcd1234"
        "2025-07-18T12:00:00Z" 0 1) = some "report_2_abcd1234" ∧
    "report_1_abcd1234" ≠ "report_2_abcd1234" := by
  refine ⟨?_, ?_, by decide⟩ <;>
    · unfold evaluateContent reportHashOf
      rw [simulateRandomError_one]
      rfl

/-- Claim C2 as amended: the evaluation operation assigns content_hash =
"report_" + Date.now() + "_" + random suffix: the fingerprint is
independent of the submitted content entirely, so byte-identical
submissions receive the same content_hash exactly when submission time and
random draw coincide, and different hashes otherwise. -/
theorem content_hash_ignores_content (st : MockState) (c1 c2 : String) (now : Nat)
    (randSuffix nowIso : String) (randTime roll : ℚ)
    (r1 r2 : EvaluationResult) (s1 s2 : MockState)
    (h1 : evaluateContent st c1 now randSuffix nowIso randTime roll = .ok (r1, s1))
    (h2 : evaluateContent st c2 now randSuffix nowIso randTime roll = .ok (r2, s2)) :
    r1.content_hash = r2.content_hash ∧
    r1.content_hash = "report_" ++ toString now ++ "_" ++ randSuffix := by
  unfold evaluateContent at h1 h2
  cases hse : simulateRandomError roll with
  | error e =>
    rw [hse] at h1
    exact Except.noConfusion h1
  | ok u =>
    rw [hse] at h1 h2
    simp only [Except.ok.injEq, Prod.mk.injEq] at h1 h2
    rw [← h1.1, ← h2.1]
    exact ⟨rfl, rfl⟩

/-- Witness for C2 as amended: two submissions with different contents at
the same instant receive the same content_hash. -/
theorem content_hash_ignores_content_witness :
    reportHashOf (evaluateContent initialMockState "alpha" 7 "zzzzzzzz" "ts" 0 1) =
      reportHashOf (evaluateContent initialMockState "beta" 7 "zzzzzzzz" "ts" 0 1) := by
  have ha : evaluateContent initialMockState "alpha" 7 "zzzzzzzz" "ts" 0 1 =
      .ok ({ sampleReport with
               content_hash := "report_" ++ toString 7 ++ "_" ++ "zzzzzzzz"
               timestamp := "ts"
               metadata := { sampleReport.metadata with evaluation_time := 2 + 0 * 3 } },
           { initialMockState with
               reports := initialMockState.reports.set
                 ("report_" ++ toString 7 ++ "_" ++ "zzzzzzzz")
                 { sampleReport with
                     content_hash := "report_" ++ toString 7 ++ "_" ++ "zzzzzzzz"
                     timestamp := "ts"
                     metadata := { sampleReport.metadata with
                                     evaluation_time := 2 + 0 * 3 } } }) := by
    unfold evaluateContent
    rw [simulateRandomError_one]
  have hb : evaluateContent initialMockState "beta" 7 "zzzzzzzz" "ts" 0 1 =
      .ok ({ sampleReport with
               content_hash := "report_" ++ toString 7 ++ "_" ++ "zzzzzzzz"
               timestamp := "ts"
               metadata := { sampleReport.metadata with evaluation_time := 2 + 0 * 3 } },
           { initialMockState with
               reports := initialMockState.reports.set
                 ("report_" ++ toString 7 ++ "_" ++ "zzzzzzzz")
                 { sampleReport with
                     content_hash := "report_" ++ toString 7 ++ "_" ++ "zzzzzzzz"
                     timestamp := "ts"
                     metadata := { sampleReport.metadata with
                                     evaluation_time := 2 + 0 * 3 } } }) := by
    unfold evaluateContent
    rw [simulateRandomError_one]
  have h := content_hash_ignores_content initialMockState "alpha" "beta" 7 "zzzzzzzz"
    "ts" 0 1 _ _ _ _ ha hb
  rw [ha, hb]

/-- Counterexample to C6: the metadata of an EvaluationResult has no
metrics_requested field at all, and in the sample report
metrics_evaluated is 15 while only 9 metric results exist, so it cannot be
the number of metric results with Ok status (no status field exists
either). -/
theorem metadata_lacks_metrics_requested :
    "metrics_requested" ∉ evaluationResultMetadataFields ∧
    sampleReport.metadata.metrics_evaluated = 15 ∧
    sampleReport.metric_results.length = 9 := by
  refine ⟨by decide, by norm_num [sampleReport], by decide⟩

/-- Claim C6 as amended: every EvaluationResult carries metadata with
exactly the fields metrics_evaluated, evaluation_time and model_used —
there is no metrics_requested field and metric results carry no Ok/Failed
status; in the sample report metrics_evaluated is 15 while only 9 metric
results are present, and the evaluation operation still returns it as a
valid EvaluationResult with that metadata. -/
theorem metadata_fields_as_shipped :
    evaluationResultMetadataFields = ["metrics_evaluated", "evaluation_time", "model_used"] ∧
    sampleReport.metadata.metrics_evaluated = 15 ∧
    sampleReport.metric_results.length = 9 ∧
    (∀ (st : MockState) (content : String) (now : Nat) (randSuffix nowIso : String)
        (randTime roll : ℚ) (r : EvaluationResult) (s2 : MockState),
      evaluateContent st content now randSuffix nowIso randTime roll = .ok (r, s2) →
      r.metadata.metrics_evaluated = sampleReport.metadata.metrics_evaluated ∧
      r.metadata.model_used = sampleReport.metadata.model_used ∧
      r.metric_results = sampleReport.metric_results) := by
  refine ⟨rfl, by norm_num [sampleReport], by decide, ?_⟩
  intro st content now randSuffix nowIso randTime roll r s2 h
  unfold evaluateContent at h
  cases hse : simulateRandomError roll with
  | error e => rw [hse] at h; exact Except.noConfusion h
  | ok u =>
    rw [hse] at h
    simp only [Except.ok.injEq, Prod.mk.injEq] at h
    rw [← h.1]
    exact ⟨rfl, rfl, rfl⟩

/-- Witness for C6 as amended: a concrete evaluateContent call returns the
sample report metadata (15 metrics_evaluated over 9 results) unchanged. -/
theorem metadata_fields_as_shipped_witness :
    reportHashOf (evaluateContent initialMockState "content" 3 "aaaaaaaa" "ts" 0 1) =
      some "report_3_aaaaaaaa" ∧
    sampleReport.metadata.metrics_evaluated = 15 := by
  have ha : evaluateContent initialMockState "content" 3 "aaaaaaaa" "ts" 0 1 =
      .ok ({ sampleReport with
               content_hash := "report_" ++ toString 3 ++ "_" ++ "aaaaaaaa"
               timestamp := "ts"
               metadata := { sampleReport.metadata with evaluation_time := 2 + 0 * 3 } },
           { initialMockState with
               reports := initialMockState.reports.set
                 ("report_" ++ toString 3 ++ "_" ++ "aaaaaaaa")
                 { sampleReport with
                     content_hash := "report_" ++ toString 3 ++ "_" ++ "aaaaaaaa"
                     timestamp := "ts"
                     metadata := { sampleReport.metadata with
                                     evaluation_time := 2 + 0 * 3 } } }) := by
    unfold evaluateContent
    rw [simulateRandomError_one]
  have h := (metadata_fields_as_shipped).2.2.2 initialMockState "content" 3 "aaaaaaaa"
    "ts" 0 1 _ _ ha
  refine ⟨?_, h.1.trans (by norm_num [sampleReport])⟩
  rw [ha]
  rfl

/-- Helper: writing a key into the report store never removes another
key: a successful lookup still succeeds after the write. -/
theorem ReportStore.findVal_set_isSome (s : ReportStore) (k : String)
    (v : EvaluationResult) (d : String) (h : (s.findVal d).isSome) :
    ((s.set k v).findVal d).isSome := by
  induction s with
  | nil => simp [ReportStore.findVal] at h
  | cons p ps ih =>
    unfold ReportStore.set
    by_cases hpk : p.fst = k
    · rw [if_pos (by simp [hpk])]
      unfold ReportStore.findVal at h ⊢
      by_cases hkd : k = d
      · simp [hkd]
      · rw [if_neg (by simpa using hkd)]
        rw [if_neg (by simp [hpk, hkd])] at h
        exact h
    · rw [if_neg (by simpa using hpk)]
      unfold ReportStore.findVal at h ⊢
      by_cases hpd : p.fst = d
      · simp [hpd]
      · rw [if_neg (by simpa using hpd)] at h ⊢
        exact ih h

/-- Helper invariant: every reachable MockApiClient state still has the
'default' report. -/
theorem reachable_default_present (st : MockState) (h : Reachable st) :
    (st.reports.findVal "default").isSome := by
  induction h with
  | init => simp [initialMockState, ReportStore.findVal]
  | eval st content now randSuffix nowIso randTime roll r st2 _ heval ih =>
    unfold evaluateContent at heval
    cases hse : simulateRandomError roll with
    | error e => rw [hse] at heval; exact Except.noConfusion heval
    | ok u =>
      rw [hse] at heval
      simp only [Except.ok.injEq, Prod.mk.injEq] at heval
      rw [← heval.2]
      exact ReportStore.findVal_set_isSome _ _ _ _ ih
  | update st req roll cfg st2 _ hupd ih =>
    unfold updateSettings at hupd
    cases hse : simulateRandomError roll with
    | error e => rw [hse] at hupd; exact Except.noConfusion hupd
    | ok u =>
      rw [hse] at hupd
      simp only [Except.ok.injEq, Prod.mk.injEq] at hupd
      rw [← hupd.2]
      exact ih

/-- Claim C9: in every reachable state, getReport and exportReport never
hit their "Report not found" branch for any reportId — an unknown id falls
back to the always-present 'default' report — and whenever the simulated
random error does not fire they resolve with a report. -/
theorem reports_always_resolve (st : MockState) (h : Reachable st) (id : String)
    (fmt : ExportFormat) (roll : ℚ) :
    (∀ x, getReport st id roll ≠ .error (.reportNotFound x)) ∧
    (∀ x, exportReport st id fmt roll ≠ .error (.reportNotFound x)) ∧
    (simulateRandomError roll = .ok () →
      (∃ r, getReport st id roll = .ok r) ∧ (∃ s, exportReport st id fmt roll = .ok s)) := by
  have hdef := reachable_default_present st h
  obtain ⟨rdef, hrdef⟩ := Option.isSome_iff_exists.mp hdef
  have hlook : ∃ rep, (st.reports.findVal id).orElse
      (fun _ => st.reports.findVal "default") = some rep := by
    cases hid : st.reports.findVal id with
    | some rep => exact ⟨rep, by simp [Option.orElse, hid]⟩
    | none => exact ⟨rdef, by simp [Option.orElse, hid, hrdef]⟩
  obtain ⟨rep, hrep⟩ := hlook
  refine ⟨?_, ?_, ?_⟩
  · intro x
    unfold getReport
    rcases simulateRandomError_cases roll with hse | hse <;> rw [hse]
    · rw [hrep]; simp
    · simp
  · intro x
    unfold exportReport
    rcases simulateRandomError_cases roll with hse | hse <;> rw [hse]
    · rw [hrep]; cases fmt <;> simp
    · simp
  · intro hok
    unfold getReport exportReport
    rw [hok, hrep]
    exact ⟨⟨rep, rfl⟩, by cases fmt <;> exact ⟨_, rfl⟩⟩

/-- Witness for C9: in the initial state an unknown reportId resolves to
the default sample report rather than a "Report not found" error. -/
theorem reports_always_resolve_witness :
    getReport initialMockState "unknown-id" 1 ≠
      Except.error (MockError.reportNotFound "unknown-id") ∧
    (∃ r, getReport initialMockState "unknown-id" 1 = Except.ok r) := by
  have h := reports_always_resolve initialMockState Reachable.init "unknown-id"
    ExportFormat.markdown 1
  exact ⟨h.1 "unknown-id", (h.2.2 simulateRandomError_one).1⟩

/-- A stored report with one category and one metric, used as the concrete
instance for the export claims (integer-valued scores). -/
def tinyReport : EvaluationResult where
  overall_score := 3
  category_scores := [("engagement", 3)]
  metric_results := [{
    metric := { name := "audience_relevance", description := "d",
                category := "engagement", weight := 1 },
    score := 3, reasoning := "r", improvement_advice := "a",
    positive_examples := [], improvement_examples := [], confidence := 1 }]
  content_hash := "h"
  timestamp := "t"
  metadata := { metrics_evaluated := 1, evaluation_time := 1, model_used := "m" }

/-- A MockApiClient state whose store holds tinyReport under key "r1". -/
def tinyState : MockState where
  settings := mockInitialSettings
  reports := [("r1", tinyReport)]

/-- Counterexample to C8: exporting the stored report whose only category
is "engagement" in markdown yields a document with no heading line for
that category — the metric subsections sit under a single Detailed Metrics
heading, not under per-category headings. -/
theorem markdown_has_no_category_heading :
    exportReport tinyState "r1" ExportFormat.markdown 1 =
      Except.ok (reportMarkdown tinyReport) ∧
    ("engagement", 3) ∈ tinyReport.category_scores ∧
    hasCategoryHeading (reportMarkdown tinyReport) "engagement" = false := by
  refine ⟨?_, by decide, by decide⟩
  unfold exportReport
  rw [simulateRandomError_one]
  rfl

/-- Claim C8 as amended: exporting a stored report with format markdown is
a pure projection of the stored EvaluationResult alone — the output is
reportMarkdown of the report the lookup resolves, which contains the
overall score line, one list line per category score under a single
Category Scores heading and one subsection heading per metric under a
single Detailed Metrics heading (not a heading per category) — and
exporting with format json serializes exactly the stored report. -/
theorem export_is_pure_projection (st : MockState) (id : String) (roll : ℚ)
    (report : EvaluationResult)
    (hlook : (st.reports.findVal id).orElse
      (fun _ => st.reports.findVal "default") = some report)
    (hroll : simulateRandomError roll = .ok ()) :
    exportReport st id ExportFormat.markdown roll = .ok (reportMarkdown report) ∧
    exportReport st id ExportFormat.json roll = .ok (stringifyReport report) ∧
    "## Overall Score: 3/5" ∈ mdLines (reportMarkdown tinyReport) ∧
    "- engagement: 3/5" ∈ mdLines (reportMarkdown tinyReport) ∧
    "### audience_relevance (3/5)" ∈ mdLines (reportMarkdown tinyReport) := by
  refine ⟨?_, ?_, by decide, by decide, by decide⟩ <;>
    · unfold exportReport
      rw [hroll, hlook]

/-- Witness for C8 as amended: the concrete export of tinyReport in both
formats. -/
theorem export_is_pure_projection_witness :
    exportReport tinyState "r1" ExportFormat.json 1 =
      Except.ok (stringifyReport tinyReport) ∧
    exportReport tinyState "r1" ExportFormat.markdown 1 =
      Except.ok (reportMarkdown tinyReport) := by
  have h := export_is_pure_projection tinyState "r1" 1 tinyReport
    (by decide) simulateRandomError_one
  exact ⟨h.2.1, h.1⟩

/-- The categories of a guidelines model that have a defined category
score, paired as (category weight, category score). -/
def definedCategories (g : GuidelinesModel) (results : List SpecMetricResult) :
    List (ℚ × ℚ) :=
  g.filterMap (fun c => (categoryScore results c.name).map (fun s => (c.weight, s)))

/-- Helper: the accumulation pass of categoryScore computes the sum of
weights, the sum of weight * score and the count over the Ok results of
the category. -/
theorem categoryScore_foldl (results : List SpecMetricResult) (cat : String)
    (a b : ℚ) (n : Nat) :
    results.foldl
      (fun acc r =>
        if r.metric.category == cat && r.status == MetricStatus.ok then
          (acc.1 + r.metric.weight, acc.2.1 + r.metric.weight * r.score, acc.2.2 + 1)
        else acc)
      (a, b, n) =
    (a + ((okResults results cat).map (fun r => r.metric.weight)).sum,
     b + ((okResults results cat).map (fun r => r.metric.weight * r.score)).sum,
     n + (okResults results cat).length) := by
  induction results generalizing a b n with
  | nil => simp [okResults]
  | cons r rs ih =>
    rw [List.foldl_cons]
    have hok : okResults (r :: rs) cat =
        if (r.metric.category == cat && r.status == MetricStatus.ok) = true
        then r :: okResults rs cat else okResults rs cat := by
      unfold okResults
      rw [List.filter_cons]
    by_cases hc : (r.metric.category == cat && r.status == MetricStatus.ok) = true
    · rw [if_pos hc, ih, hok, if_pos hc]
      simp only [List.map_cons, List.sum_cons, List.length_cons]
      exact congrArg₂ Prod.mk (by ring) (congrArg₂ Prod.mk (by ring) (by omega))
    · rw [if_neg hc, ih, hok, if_neg hc]

/-- Helper: the accumulation pass of overallScore computes the sum of
weights, the sum of weight * score and the count over the categories with
a defined category score. -/
theorem overallScore_foldl (g : GuidelinesModel) (results : List SpecMetricResult)
    (a b : ℚ) (n : Nat) :
    g.foldl
      (fun acc c =>
        match categoryScore results c.name with
        | some s => (acc.1 + c.weight, acc.2.1 + c.weight * s, acc.2.2 + 1)
        | none => acc)
      (a, b, n) =
    (a + ((definedCategories g results).map Prod.fst).sum,
     b + ((definedCategories g results).map (fun p => p.1 * p.2)).sum,
     n + (definedCategories g results).length) := by
  induction g generalizing a b n with
  | nil => simp [definedCategories]
  | cons c cs ih =>
    cases hc : categoryScore results c.name with
    | some s =>
      rw [List.foldl_cons]
      have hdef : definedCategories (c :: cs) results =
          (c.weight, s) :: definedCategories cs results := by
        unfold definedCategories
        rw [List.filterMap_cons, hc]
        rfl
      rw [hdef]
      simp only [hc]
      rw [ih]
      simp only [List.map_cons, List.sum_cons, List.length_cons]
      exact congrArg₂ Prod.mk (by ring) (congrArg₂ Prod.mk (by ring) (by omega))
    | none =>
      rw [List.foldl_cons]
      have hdef : definedCategories (c :: cs) results = definedCategories cs results := by
        unfold definedCategories
        rw [List.filterMap_cons, hc]
        rfl
      rw [hdef]
      simp only [hc]
      exact ih a b n

/-- Claim C1 (modelled from the spec, the Coordinator aggregation being
backend code absent from src/): the category score is the weighted mean
sum(weight * score) / sum(weight) over exactly the Ok results of the
category and is absent — not zero — when the category has no Ok result;
the overall score is sum(category weight * category score) /
sum(category weight) over exactly the categories with a defined category
score, absent when there is none. -/
theorem weighted_aggregation (g : GuidelinesModel) (results : List SpecMetricResult)
    (cat : String) :
    (categoryScore results cat = none ↔ okResults results cat = []) ∧
    (okResults results cat ≠ [] →
      categoryScore results cat =
        some (((okResults results cat).map (fun r => r.metric.weight * r.score)).sum /
              ((okResults results cat).map (fun r => r.metric.weight)).sum)) ∧
    (overallScore g results = none ↔ definedCategories g results = []) ∧
    (definedCategories g results ≠ [] →
      overallScore g results =
        some (((definedCategories g results).map (fun p => p.1 * p.2)).sum /
              ((definedCategories g results).map Prod.fst).sum)) := by
  have hcat := categoryScore_foldl results cat 0 0 0
  have hov := overallScore_foldl g results 0 0 0
  constructor
  · unfold categoryScore
    rw [hcat]
    simp [List.length_eq_zero]
  constructor
  · intro hne
    unfold categoryScore
    rw [hcat]
    rw [if_neg (by simpa [List.length_eq_zero] using hne)]
    simp
  constructor
  · unfold overallScore
    rw [hov]
    simp [List.length_eq_zero]
  · intro hne
    unfold overallScore
    rw [hov]
    rw [if_neg (by simpa [List.length_eq_zero] using hne)]
    simp

/-- The spec's aggregation test vector: one category with metric weights
0.3, 0.4, 0.3 and Ok scores 4, 2, 5. -/
def exampleResults : List SpecMetricResult :=
  [{ metric := { name := "m1", description := "d1", category := "clarity", weight := (0.3 : ℚ) },
     score := 4, status := .ok },
   { metric := { name := "m2", description := "d2", category := "clarity", weight := (0.4 : ℚ) },
     score := 2, status := .ok },
   { metric := { name := "m3", description := "d3", category := "clarity", weight := (0.3 : ℚ) },
     score := 5, status := .ok }]

/-- Witness for C1: on the spec's test vector the category score is
(0.3 * 4 + 0.4 * 2 + 0.3 * 5) / 1.0 = 3.5. -/
theorem weighted_aggregation_witness :
    okResults exampleResults "clarity" ≠ [] ∧
    categoryScore exampleResults "clarity" = some (3.5 : ℚ) := by
  have hne : okResults exampleResults "clarity" ≠ [] := by
    simp [okResults, exampleResults]
  refine ⟨hne, ?_⟩
  rw [(weighted_aggregation [] exampleResults "clarity").2.1 hne]
  norm_num [okResults, exampleResults]

end Scorecard
